import Mathlib

/-!
Shallow embedding of the Send client's session layer: `User.finishLogin`,
`User.logout` and `User.syncFileList` from `src/app/user.js`, and the
`upload` / `download` emitter handlers from `src/unnamed/part_000`.

Local persisted storage (`src/app/storage.js`), the crypto streams
(`src/app/ece.js`), the remote API (`src/app/api.js`) and the FxA helpers
(`src/app/fxa.js`) are not part of the given sources; they are modelled
abstractly (environment functions / spec-level contracts) and each such
definition says so in its doc comment.
-/

set_option autoImplicit false

namespace Send

/-! ## Key-value storage (`storage.get` / `storage.remove`) -/

/-- Modelled from the spec: the local persisted state exposes
`get/set/remove(key)`.  An association list of string keys and values;
`kvGet` returns the value of the first matching entry (JS `storage.get`,
`Option.none` standing for `undefined`). -/
def kvGet (kv : List (String × String)) (k : String) : Option String :=
  match kv with
  | [] => Option.none
  | (k1, v) :: rest => if k1 = k then some v else kvGet rest k

/-- Modelled from the spec: `storage.remove(key)` deletes the entry for
`key`. -/
def kvRemove (kv : List (String × String)) (k : String) : List (String × String) :=
  match kv with
  | [] => []
  | (k1, v) :: rest => if k1 = k then kvRemove rest k else (k1, v) :: kvRemove rest k

/-! ## The user session record -/

/-- An owned-file record of the local file list.  The merge algorithm lives
in `storage.js` (not among the sources), so records are opaque here; only
identity matters to the claims. -/
structure OwnedFile where
  id : Nat
deriving DecidableEq, Repr

/-- The persisted user record (`this.info` / `storage.user` in
`src/app/user.js`).  `access_token` drives `loggedIn`; `fileListKey` is the
b64 file-list key stored by `finishLogin`.  The empty record `{}` of
`logout` is the record with every field absent. -/
structure UserInfo where
  access_token : Option String := Option.none
  fileListKey : Option String := Option.none
  email : Option String := Option.none
  displayName : Option String := Option.none
deriving DecidableEq, Repr

/-- The client-side mutable state touched by `User`: the key-value storage,
the persisted user record, and the locally persisted file list. -/
structure UserState where
  kv : List (String × String)
  info : UserInfo
  files : List OwnedFile
deriving DecidableEq, Repr

/-- JS `get loggedIn() { return !!this.info.access_token; }`. -/
def loggedIn (s : UserState) : Bool :=
  s.info.access_token.isSome

/-- JS `logout()`: `this.storage.clearLocalFiles(); this.info = {};`
(`clearLocalFiles` is modelled from the spec as emptying the local file
list). -/
def logout (s : UserState) : UserState :=
  { s with files := [], info := {} }

/-! ## finishLogin (`src/app/user.js`) -/

/-- The parsed body of the OAuth token-endpoint response:
`{access_token, keys_jwe}`. -/
structure AuthResponse where
  access_token : String
  keys_jwe : String
deriving DecidableEq, Repr

/-- The parsed body of the userinfo-endpoint response (profile fields). -/
structure Profile where
  email : Option String := Option.none
  displayName : Option String := Option.none
deriving DecidableEq, Repr

/-- The network calls `finishLogin` can make, in order of occurrence. -/
inductive LoginNet where
  | tokenEndpoint
  | userinfoEndpoint
deriving DecidableEq, Repr

/-- The environment of `finishLogin`: the token-endpoint exchange
(given the code and the stored PKCE verifier), the userinfo fetch (given
the bearer token), and `getFileListKey` from `src/app/fxa.js` (not among
the sources, abstract) unwrapping `keys_jwe` into the file-list key.  Each
step may throw, modelled by `Except` with the JS error message. -/
structure LoginEnv where
  tokenExchange : String → Option String → Except String AuthResponse
  userinfo : String → Except String Profile
  unwrapKey : String → Except String String

/-- JS `User.finishLogin(code, state)`: read and remove `oauthState`, fail
with `state mismatch` when the argument differs from the stored value,
otherwise exchange the code (with the stored `pkceVerifier`) for tokens,
fetch the profile, unwrap the file-list key, store the session record and
finally remove `pkceVerifier`.  Returns the outcome, the new state, and
the list of network calls performed. -/
def finishLogin (env : LoginEnv) (s : UserState) (code st : String) :
    Except String Unit × UserState × List LoginNet :=
  let localState := kvGet s.kv "oauthState"
  let s1 : UserState := { s with kv := kvRemove s.kv "oauthState" }
  if some st ≠ localState then
    (Except.error "state mismatch", s1, [])
  else
    match env.tokenExchange code (kvGet s1.kv "pkceVerifier") with
    | Except.error e => (Except.error e, s1, [LoginNet.tokenEndpoint])
    | Except.ok auth =>
      match env.userinfo auth.access_token with
      | Except.error e =>
        (Except.error e, s1, [LoginNet.tokenEndpoint, LoginNet.userinfoEndpoint])
      | Except.ok prof =>
        match env.unwrapKey auth.keys_jwe with
        | Except.error e =>
          (Except.error e, s1, [LoginNet.tokenEndpoint, LoginNet.userinfoEndpoint])
        | Except.ok key =>
          let info : UserInfo :=
            { access_token := some auth.access_token,
              fileListKey := some key,
              email := prof.email,
              displayName := prof.displayName }
          let s2 : UserState :=
            { s1 with info := info, kv := kvRemove s1.kv "pkceVerifier" }
          (Except.ok (), s2, [LoginNet.tokenEndpoint, LoginNet.userinfoEndpoint])

/-! ## syncFileList (`src/app/user.js`) -/

/-- The `{incoming, outgoing, downloadCount}` record returned by
`storage.merge` (the local store's merge contract). -/
structure Changes where
  incoming : Bool
  outgoing : Bool
  downloadCount : Bool
deriving DecidableEq, Repr

/-- The all-false change record. -/
def Changes.clean : Changes :=
  { incoming := false, outgoing := false, downloadCount := false }

/-- A JS object returned by `syncFileList`: each field is present
(`some b`) or absent/`undefined` (`Option.none`).  The forced-logout path
returns the literal `{ incoming: true }`, which has no `outgoing` and no
`downloadCount` field. -/
structure SyncResult where
  incoming : Option Bool := Option.none
  outgoing : Option Bool := Option.none
  downloadCount : Option Bool := Option.none
deriving DecidableEq, Repr

/-- A full merge result viewed as a `syncFileList` return object. -/
def Changes.toResult (c : Changes) : SyncResult :=
  { incoming := some c.incoming,
    outgoing := some c.outgoing,
    downloadCount := some c.downloadCount }

/-- The network operations `syncFileList` can attempt against the remote
file-list store: the manifest `GET` and the manifest `PUT`. -/
inductive SyncNet where
  | fetchList
  | pushList
deriving DecidableEq, Repr

/-- The environment of one `syncFileList` run, over an opaque ciphertext
type `C`.  `decrypt`/`encrypt` stand for `decryptStream`/`encryptStream`
plus JSON (de)serialisation (`src/app/ece.js` is not among the sources);
`decrypt` may throw, with the JS error message.  `merge` is
`storage.merge`: given the decrypted remote list (or no argument on the
local-only path) and the current local files, it returns the new local
files and the change record — `storage.js` is not among the sources, so
`merge` stays abstract.  `fetchFail` (resp. `setFail`) is `some e` when the
manifest `GET` (resp. `PUT`) throws `e`. -/
structure SyncEnv (C : Type) where
  fetchFail : Option String
  setFail : Option String
  decrypt : C → String → Except String (List OwnedFile)
  encrypt : List OwnedFile → String → C
  merge : Option (List OwnedFile) → List OwnedFile → List OwnedFile × Changes

/-- The world a sync run acts on: the client state and the remote manifest
blob (absent for an account that never pushed one). -/
structure World (C : Type) where
  user : UserState
  remote : Option C
deriving DecidableEq, Repr

/-- Modelled from the spec: `getFileList(bearerToken)` of `src/app/api.js`
returns the stored manifest blob; a transport/auth failure throws the
environment's error, and a missing manifest is a `404` (unknown id). -/
def fetchManifest {C : Type} (env : SyncEnv C) (w : World C) : Except String C :=
  match env.fetchFail with
  | some e => Except.error e
  | Option.none =>
    match w.remote with
    | some blob => Except.ok blob
    | Option.none => Except.error "404"

/-- The body of the `try` block of `syncFileList`: fetch the manifest, read
the b64 file-list key (`b64ToArray` of an absent key throws a TypeError),
decrypt and parse.  The first failure wins, as in JS. -/
def fetchDecrypt {C : Type} (env : SyncEnv C) (w : World C) :
    Except String (List OwnedFile) :=
  match fetchManifest env w with
  | Except.error e => Except.error e
  | Except.ok blob =>
    match w.user.info.fileListKey with
    | Option.none => Except.error "TypeError"
    | some k => env.decrypt blob k

/-- The tail of `syncFileList` after the `try/catch`: merge the list into
the local store; when the merge reports no outgoing changes return it,
otherwise serialise the post-merge files, encrypt them with the file-list
key and `setFileList` them — any failure of that block is swallowed and the
merge result is returned regardless. -/
def mergeAndPush {C : Type} (env : SyncEnv C) (w : World C)
    (list : Option (List OwnedFile)) (trace : List SyncNet) :
    SyncResult × World C × List SyncNet :=
  let m := env.merge list w.user.files
  let w1 : World C := { w with user := { w.user with files := m.1 } }
  if m.2.outgoing = false then
    (m.2.toResult, w1, trace)
  else
    match w1.user.info.fileListKey with
    | Option.none => (m.2.toResult, w1, trace)
    | some k =>
      let blob := env.encrypt m.1 k
      match env.setFail with
      | some _ => (m.2.toResult, w1, trace ++ [SyncNet.pushList])
      | Option.none =>
        (m.2.toResult, { w1 with remote := some blob }, trace ++ [SyncNet.pushList])

/-- JS `User.syncFileList()`: when not logged in, return
`this.storage.merge()` (no remote list, no network).  Otherwise fetch and
decrypt the remote manifest; a `401` failure logs the session out and
returns the literal `{ incoming: true }`; any other failure leaves
`list = []`; then merge and, if needed, push.  Returns the result object,
the new world, and the network operations attempted. -/
def syncFileList {C : Type} (env : SyncEnv C) (w : World C) :
    SyncResult × World C × List SyncNet :=
  if loggedIn w.user = false then
    let m := env.merge Option.none w.user.files
    (m.2.toResult, { w with user := { w.user with files := m.1 } }, [])
  else
    match fetchDecrypt env w with
    | Except.error e =>
      if e = "401" then
        ({ incoming := some true }, { w with user := logout w.user }, [SyncNet.fetchList])
      else
        mergeAndPush env w (some []) [SyncNet.fetchList]
    | Except.ok list => mergeAndPush env w (some list) [SyncNet.fetchList]

/-! ## The upload / download emitter handlers (`src/unnamed/part_000`) -/

/-- The observable effects of one run of the `upload` handler: which owned
files were written to storage, which metrics were emitted (in order),
whether `raven.captureException` ran, which route (if any) was pushed,
which modal (if any) was shown, whether the `password` event was emitted,
and whether the `finally` block cleared the archive and re-synced. -/
structure UploadFx where
  storedFiles : List OwnedFile
  metricsCalls : List String
  ravenCaptured : Bool
  routePushed : Option String
  modal : Option String
  passwordEmitted : Bool
  archiveCleared : Bool
  syncCalled : Bool
deriving DecidableEq, Repr

/-- The `emitter.on('upload')` handler.  `tooManyArchives` is the guard
`state.storage.files.length >= LIMITS.MAX_ARCHIVES_PER_USER` (which shows
an `okDialog` and returns before any transfer); `outcome` is the result of
`await sender.upload(...)`, an `OwnedFile` or a thrown error message;
`hasPassword` is `archive.password` being set.  The catch block treats the
message `0` as cancellation (`cancelledUpload` metric, no error handling);
every other error is captured by raven, counted as `stoppedUpload`, and
routes to `/error`. -/
def uploadHandler (tooManyArchives : Bool) (outcome : Except String OwnedFile)
    (hasPassword : Bool) : UploadFx :=
  if tooManyArchives then
    { storedFiles := [], metricsCalls := [], ravenCaptured := false,
      routePushed := Option.none, modal := some "okDialog",
      passwordEmitted := false, archiveCleared := false, syncCalled := false }
  else
    match outcome with
    | Except.ok f =>
      { storedFiles := [f],
        metricsCalls := ["startedUpload", "completedUpload"],
        ravenCaptured := false, routePushed := Option.none,
        modal := some "copyDialog", passwordEmitted := hasPassword,
        archiveCleared := true, syncCalled := true }
    | Except.error e =>
      if e = "0" then
        { storedFiles := [], metricsCalls := ["startedUpload", "cancelledUpload"],
          ravenCaptured := false, routePushed := Option.none,
          modal := Option.none, passwordEmitted := false,
          archiveCleared := true, syncCalled := true }
      else
        { storedFiles := [], metricsCalls := ["startedUpload", "stoppedUpload"],
          ravenCaptured := true, routePushed := some "/error",
          modal := Option.none, passwordEmitted := false,
          archiveCleared := true, syncCalled := true }

/-- The observable effects of one run of the `download` handler. -/
structure DownloadFx where
  metricsCalls : List String
  ravenCaptured : Bool
  routePushed : Option String
  transferReset : Bool
  transferCleared : Bool
deriving DecidableEq, Repr

/-- The `emitter.on('download')` handler.  `outcome` is the result of
`await state.transfer.download(...)`.  The catch block treats the message
`0` as cancellation (reset the receiver, re-render); a `404` routes to
`/404` with no raven and no `stoppedDownload` metric; every other error is
captured by raven, counted as `stoppedDownload`, and routes to `/error`. -/
def downloadHandler (outcome : Except String Unit) : DownloadFx :=
  match outcome with
  | Except.ok _ =>
    { metricsCalls := ["startedDownload", "completedDownload"],
      ravenCaptured := false, routePushed := Option.none,
      transferReset := false, transferCleared := false }
  | Except.error e =>
    if e = "0" then
      { metricsCalls := ["startedDownload"], ravenCaptured := false,
        routePushed := Option.none, transferReset := true,
        transferCleared := false }
    else if e = "404" then
      { metricsCalls := ["startedDownload"], ravenCaptured := false,
        routePushed := some "/404", transferReset := false,
        transferCleared := true }
    else
      { metricsCalls := ["startedDownload", "stoppedDownload"],
        ravenCaptured := true, routePushed := some "/error",
        transferReset := false, transferCleared := true }

/-- Decidable equality for `Except`, used to evaluate concrete runs. -/
instance {α β : Type} [DecidableEq α] [DecidableEq β] : DecidableEq (Except α β) :=
  fun x y =>
    match x, y with
    | Except.error a, Except.error b =>
      if h : a = b then isTrue (by rw [h])
      else isFalse (fun hc => h (Except.error.inj hc))
    | Except.ok a, Except.ok b =>
      if h : a = b then isTrue (by rw [h])
      else isFalse (fun hc => h (Except.ok.inj hc))
    | Except.error _, Except.ok _ => isFalse (fun hc => Except.noConfusion hc)
    | Except.ok _, Except.error _ => isFalse (fun hc => Except.noConfusion hc)

/-! ## Concrete instances used by witnesses and counterexamples -/

/-- A merge mimicking the spec's union semantics over opaque records:
remote records absent locally are adopted (`incoming`), local records
absent remotely make the manifest stale (`outgoing`). -/
def demoMerge (remote : Option (List OwnedFile)) (files : List OwnedFile) :
    List OwnedFile × Changes :=
  match remote with
  | Option.none => (files, Changes.clean)
  | some l =>
    (files ++ l.filter (fun x => !(files.contains x)),
      { incoming := l.any (fun x => !(files.contains x)),
        outgoing := files.any (fun x => !(l.contains x)),
        downloadCount := false })

/-- A sync environment over plaintext blobs (identity cipher), successful
transport, and a merge that never changes anything. -/
def idSyncEnv : SyncEnv (List OwnedFile) :=
  { fetchFail := Option.none, setFail := Option.none,
    decrypt := fun c _ => Except.ok c,
    encrypt := fun l _ => l,
    merge := fun _ files => (files, Changes.clean) }

/-- The identity-cipher environment with the union merge. -/
def envDemo : SyncEnv (List OwnedFile) :=
  { idSyncEnv with merge := demoMerge }

/-- The union-merge environment whose manifest `GET` throws `500`. -/
def envDemo500 : SyncEnv (List OwnedFile) :=
  { envDemo with fetchFail := some "500" }

/-- The identity-cipher environment whose manifest `GET` throws `401`. -/
def env401 : SyncEnv (List OwnedFile) :=
  { idSyncEnv with fetchFail := some "401" }

/-- The identity-cipher environment whose manifest `GET` throws `500`. -/
def env500 : SyncEnv (List OwnedFile) :=
  { idSyncEnv with fetchFail := some "500" }

/-- A session record with a bearer token and a file-list key. -/
def infoLogged : UserInfo :=
  { access_token := some "tok", fileListKey := some "key" }

/-- A logged-in world: one local file, a remote manifest holding another. -/
def wLogged : World (List OwnedFile) :=
  { user := { kv := [], info := infoLogged, files := [⟨1⟩] },
    remote := some [⟨2⟩] }

/-- A logged-out world with one (expired-session) local file. -/
def wAnon : World (List OwnedFile) :=
  { user := { kv := [], info := {}, files := [⟨3⟩] }, remote := Option.none }

/-- A logged-in world with no local files and one remote record. -/
def wDemo : World (List OwnedFile) :=
  { user := { kv := [], info := infoLogged, files := [] },
    remote := some [⟨5⟩] }

/-- A login environment in which every step succeeds. -/
def envLoginOk : LoginEnv :=
  { tokenExchange := fun _ _ =>
      Except.ok { access_token := "tok", keys_jwe := "jwe" },
    userinfo := fun _ =>
      Except.ok { email := some "a@b.c", displayName := some "A" },
    unwrapKey := fun _ => Except.ok "flk" }

/-- A login environment in which the token exchange throws. -/
def envLoginNetFail : LoginEnv :=
  { tokenExchange := fun _ _ => Except.error "network error",
    userinfo := fun _ => Except.error "network error",
    unwrapKey := fun _ => Except.error "network error" }

/-- A client state holding a stored OAuth state `abc` and a stored PKCE
verifier `ver`. -/
def sLoginA : UserState :=
  { kv := [("oauthState", "abc"), ("pkceVerifier", "ver")],
    info := {}, files := [] }

/-! ## Storage lemmas -/

theorem kvGet_kvRemove_self (kv : List (String × String)) (k : String) :
    kvGet (kvRemove kv k) k = Option.none := by
  induction kv with
  | nil => rfl
  | cons p rest ih =>
    obtain ⟨k1, v⟩ := p
    by_cases h : k1 = k
    · simp [kvRemove, h, ih]
    · simp [kvRemove, kvGet, h, ih]

theorem kvGet_kvRemove_other (kv : List (String × String)) (k k2 : String)
    (hne : k2 ≠ k) : kvGet (kvRemove kv k) k2 = kvGet kv k2 := by
  induction kv with
  | nil => rfl
  | cons p rest ih =>
    obtain ⟨k1, v⟩ := p
    by_cases h : k1 = k
    · subst h
      have h2 : k1 ≠ k2 := fun hk => hne hk.symm
      simp [kvRemove, kvGet, h2, ih]
    · by_cases h2 : k1 = k2
      · subst h2
        simp [kvRemove, kvGet, h]
      · simp [kvRemove, kvGet, h, h2, ih]

/-! ## finishLogin theorems -/

/-- Helper: the storage left behind by `finishLogin` is the input storage
with `oauthState` removed, and additionally `pkceVerifier` removed on the
success path. -/
theorem finishLogin_kv (env : LoginEnv) (s : UserState) (code st : String) :
    (finishLogin env s code st).2.1.kv = kvRemove s.kv "oauthState" ∨
    (finishLogin env s code st).2.1.kv =
      kvRemove (kvRemove s.kv "oauthState") "pkceVerifier" := by
  unfold finishLogin
  dsimp only
  split
  · left; rfl
  · split
    · left; rfl
    · split
      · left; rfl
      · split
        · left; rfl
        · right; rfl

/-- Helper: after any `finishLogin` call the stored `oauthState` is gone. -/
theorem finishLogin_removes_oauthState (env : LoginEnv) (s : UserState)
    (code st : String) :
    kvGet (finishLogin env s code st).2.1.kv "oauthState" = Option.none := by
  rcases finishLogin_kv env s code st with h | h <;> rw [h]
  · exact kvGet_kvRemove_self s.kv "oauthState"
  · rw [kvGet_kvRemove_other _ _ _ (by decide)]
    exact kvGet_kvRemove_self s.kv "oauthState"

/-- Helper carrying the state-mismatch behaviour of `finishLogin`, shared
by the single-use-state development. -/
theorem finishLogin_mismatch_eq (env : LoginEnv) (s : UserState)
    (code st : String) (h : some st ≠ kvGet s.kv "oauthState") :
    finishLogin env s code st =
      (Except.error "state mismatch",
        { s with kv := kvRemove s.kv "oauthState" }, []) := by
  unfold finishLogin
  dsimp only
  rw [if_pos h]

/-- C2: a `finishLogin(code, state)` call whose `state` argument differs
from the stored `oauthState` returns the `state mismatch` error with an
empty network trace (no token exchange, no userinfo fetch), and the only
state change is the removal of `oauthState` — in particular the session
record `info` is not written. -/
theorem finishLogin_state_mismatch (env : LoginEnv) (s : UserState)
    (code st : String) (h : some st ≠ kvGet s.kv "oauthState") :
    finishLogin env s code st =
      (Except.error "state mismatch",
        { s with kv := kvRemove s.kv "oauthState" }, []) :=
  finishLogin_mismatch_eq env s code st h

/-- C2 witness: a concrete mismatching call. -/
theorem finishLogin_state_mismatch_witness :
    finishLogin envLoginOk sLoginA "code1" "wrong" =
      (Except.error "state mismatch",
        { sLoginA with kv := kvRemove sLoginA.kv "oauthState" }, []) :=
  finishLogin_state_mismatch envLoginOk sLoginA "code1" "wrong" (by decide)

/-- C3 counterexample: with the stored state matching but the token
exchange throwing, `finishLogin` fails and the stored `pkceVerifier` is
NOT erased — it is still present afterwards, contradicting the claim that
the verifier is erased when any step of the exchange fails. -/
theorem finishLogin_verifier_counterexample :
    (finishLogin envLoginNetFail sLoginA "c" "abc").1 =
        Except.error "network error" ∧
    kvGet (finishLogin envLoginNetFail sLoginA "c" "abc").2.1.kv "pkceVerifier" =
        some "ver" := by
  exact ⟨rfl, rfl⟩

/-- C3 amended: for every `finishLogin` call that passes the state check,
the stored `pkceVerifier` is erased when the whole exchange succeeds; when
any step of the exchange throws, the verifier is left in storage exactly
as it was. -/
theorem finishLogin_verifier_erasure (env : LoginEnv) (s : UserState)
    (code st : String) (hstate : some st = kvGet s.kv "oauthState") :
    ((finishLogin env s code st).1 = Except.ok () →
      kvGet (finishLogin env s code st).2.1.kv "pkceVerifier" = Option.none) ∧
    (∀ e, (finishLogin env s code st).1 = Except.error e →
      kvGet (finishLogin env s code st).2.1.kv "pkceVerifier" =
        kvGet s.kv "pkceVerifier") := by
  have hver : kvGet (kvRemove s.kv "oauthState") "pkceVerifier" =
      kvGet s.kv "pkceVerifier" :=
    kvGet_kvRemove_other s.kv "oauthState" "pkceVerifier" (by decide)
  have hcond : ¬(some st ≠ kvGet s.kv "oauthState") := not_not_intro hstate
  unfold finishLogin
  dsimp only
  rw [if_neg hcond]
  cases htok : env.tokenExchange code (kvGet (kvRemove s.kv "oauthState") "pkceVerifier") with
  | error e0 => simp [hver]
  | ok auth =>
    cases hinfo : env.userinfo auth.access_token with
    | error e0 => simp [hinfo, hver]
    | ok prof =>
      cases hkey : env.unwrapKey auth.keys_jwe with
      | error e0 => simp [hinfo, hkey, hver]
      | ok key => simp [hinfo, hkey, kvGet_kvRemove_self]

/-- C3 witness: a successful concrete exchange erases the verifier. -/
theorem finishLogin_verifier_erasure_witness :
    kvGet (finishLogin envLoginOk sLoginA "c" "abc").2.1.kv "pkceVerifier" =
      Option.none :=
  (finishLogin_verifier_erasure envLoginOk sLoginA "c" "abc" rfl).1 rfl

/-- C10: the stored OAuth state is single-use.  `finishLogin` removes
`oauthState` before the comparison, so after any call — successful or not —
the stored state is gone and every subsequent `finishLogin`, whatever its
arguments, fails the state check with `state mismatch`. -/
theorem oauthState_single_use (env : LoginEnv) (s : UserState)
    (code st : String) :
    kvGet (finishLogin env s code st).2.1.kv "oauthState" = Option.none ∧
    ∀ (env2 : LoginEnv) (code2 st2 : String),
      (finishLogin env2 (finishLogin env s code st).2.1 code2 st2).1 =
        Except.error "state mismatch" := by
  refine ⟨finishLogin_removes_oauthState env s code st, ?_⟩
  intro env2 code2 st2
  have h1 := finishLogin_removes_oauthState env s code st
  have h2 := finishLogin_mismatch_eq env2 (finishLogin env s code st).2.1 code2 st2
    (by rw [h1]; exact fun hcon => Option.noConfusion hcon)
  rw [h2]

/-! ## syncFileList helper lemmas -/

theorem mergeAndPush_user {C : Type} (env : SyncEnv C) (w : World C)
    (list : Option (List OwnedFile)) (trace : List SyncNet) :
    (mergeAndPush env w list trace).2.1.user =
      { w.user with files := (env.merge list w.user.files).1 } := by
  unfold mergeAndPush
  dsimp only
  split
  · rfl
  · split
    · rfl
    · split
      · rfl
      · rfl

theorem mergeAndPush_result {C : Type} (env : SyncEnv C) (w : World C)
    (list : Option (List OwnedFile)) (trace : List SyncNet) :
    (mergeAndPush env w list trace).1 = (env.merge list w.user.files).2.toResult := by
  unfold mergeAndPush
  dsimp only
  split
  · rfl
  · split
    · rfl
    · split
      · rfl
      · rfl

theorem mergeAndPush_info {C : Type} (env : SyncEnv C) (w : World C)
    (list : Option (List OwnedFile)) (trace : List SyncNet) :
    (mergeAndPush env w list trace).2.1.user.info = w.user.info := by
  rw [mergeAndPush_user]

theorem mergeAndPush_kv {C : Type} (env : SyncEnv C) (w : World C)
    (list : Option (List OwnedFile)) (trace : List SyncNet) :
    (mergeAndPush env w list trace).2.1.user.kv = w.user.kv := by
  rw [mergeAndPush_user]

theorem mergeAndPush_files {C : Type} (env : SyncEnv C) (w : World C)
    (list : Option (List OwnedFile)) (trace : List SyncNet) :
    (mergeAndPush env w list trace).2.1.user.files =
      (env.merge list w.user.files).1 := by
  rw [mergeAndPush_user]

theorem mergeAndPush_not_outgoing {C : Type} (env : SyncEnv C) (w : World C)
    (list : Option (List OwnedFile)) (trace : List SyncNet)
    (hout : (env.merge list w.user.files).2.outgoing = false) :
    mergeAndPush env w list trace =
      ((env.merge list w.user.files).2.toResult,
        { w with user := { w.user with files := (env.merge list w.user.files).1 } },
        trace) := by
  unfold mergeAndPush
  dsimp only
  rw [hout]
  simp

theorem mergeAndPush_outgoing_eq {C : Type} (env : SyncEnv C) (w : World C)
    (list : Option (List OwnedFile)) (trace : List SyncNet) (k : String)
    (hout : (env.merge list w.user.files).2.outgoing = true)
    (hk : w.user.info.fileListKey = some k)
    (hset : env.setFail = Option.none) :
    mergeAndPush env w list trace =
      ((env.merge list w.user.files).2.toResult,
        { user := { w.user with files := (env.merge list w.user.files).1 },
          remote := some (env.encrypt (env.merge list w.user.files).1 k) },
        trace ++ [SyncNet.pushList]) := by
  unfold mergeAndPush
  dsimp only
  rw [hout, hk, hset]
  simp

theorem mergeAndPush_outgoing_fail {C : Type} (env : SyncEnv C) (w : World C)
    (list : Option (List OwnedFile)) (trace : List SyncNet) (k err : String)
    (hout : (env.merge list w.user.files).2.outgoing = true)
    (hk : w.user.info.fileListKey = some k)
    (hset : env.setFail = some err) :
    mergeAndPush env w list trace =
      ((env.merge list w.user.files).2.toResult,
        { w with user := { w.user with files := (env.merge list w.user.files).1 } },
        trace ++ [SyncNet.pushList]) := by
  unfold mergeAndPush
  dsimp only
  rw [hout, hk, hset]
  simp

theorem fetchDecrypt_eq {C : Type} (env : SyncEnv C) (w : World C)
    (b : C) (k : String)
    (hf : env.fetchFail = Option.none) (hr : w.remote = some b)
    (hk : w.user.info.fileListKey = some k) :
    fetchDecrypt env w = env.decrypt b k := by
  unfold fetchDecrypt fetchManifest
  rw [hf, hr, hk]

theorem fetchDecrypt_ok_elim {C : Type} (env : SyncEnv C) (w : World C)
    (l : List OwnedFile) (h : fetchDecrypt env w = Except.ok l) :
    env.fetchFail = Option.none ∧
    ∃ b, w.remote = some b ∧ ∃ k, w.user.info.fileListKey = some k ∧
      env.decrypt b k = Except.ok l := by
  unfold fetchDecrypt fetchManifest at h
  cases hf : env.fetchFail with
  | some e => rw [hf] at h; simp at h
  | none =>
    rw [hf] at h
    cases hr : w.remote with
    | none => rw [hr] at h; simp at h
    | some b =>
      rw [hr] at h
      cases hk : w.user.info.fileListKey with
      | none => rw [hk] at h; simp at h
      | some k =>
        rw [hk] at h
        exact ⟨rfl, b, rfl, k, rfl, h⟩

theorem syncFileList_anon {C : Type} (env : SyncEnv C) (w : World C)
    (hlog : loggedIn w.user = false) :
    syncFileList env w =
      ((env.merge Option.none w.user.files).2.toResult,
        { w with user := { w.user with files := (env.merge Option.none w.user.files).1 } },
        []) := by
  unfold syncFileList
  simp [hlog]

theorem syncFileList_401 {C : Type} (env : SyncEnv C) (w : World C)
    (hlog : loggedIn w.user = true)
    (hfd : fetchDecrypt env w = Except.error "401") :
    syncFileList env w =
      ({ incoming := some true }, { w with user := logout w.user },
        [SyncNet.fetchList]) := by
  unfold syncFileList
  simp [hlog, hfd]

theorem syncFileList_loggedIn_err {C : Type} (env : SyncEnv C) (w : World C)
    (e : String) (hlog : loggedIn w.user = true)
    (hfd : fetchDecrypt env w = Except.error e) (hne : e ≠ "401") :
    syncFileList env w = mergeAndPush env w (some []) [SyncNet.fetchList] := by
  unfold syncFileList
  simp [hlog, hfd, hne]

theorem syncFileList_loggedIn_ok {C : Type} (env : SyncEnv C) (w : World C)
    (l : List OwnedFile) (hlog : loggedIn w.user = true)
    (hfd : fetchDecrypt env w = Except.ok l) :
    syncFileList env w = mergeAndPush env w (some l) [SyncNet.fetchList] := by
  unfold syncFileList
  simp [hlog, hfd]

/-! ## syncFileList claim theorems -/

/-- C1: when a logged-in `syncFileList` run's manifest fetch/decrypt fails
with `401`, the session is force-logged-out — the persisted user record
becomes `{}` and the local files are cleared — and the call returns
`{ incoming: true }`; when the fetch/decrypt does not fail with `401`, the
persisted user record and the rest of the storage are untouched, so the
`401` path is the only sync path that mutates session state. -/
theorem sync_401_forces_logout {C : Type} (env : SyncEnv C) (w : World C)
    (hlog : loggedIn w.user = true) :
    (fetchDecrypt env w = Except.error "401" →
      syncFileList env w =
        ({ incoming := some true }, { w with user := logout w.user },
          [SyncNet.fetchList])) ∧
    (fetchDecrypt env w ≠ Except.error "401" →
      (syncFileList env w).2.1.user.info = w.user.info ∧
      (syncFileList env w).2.1.user.kv = w.user.kv) := by
  constructor
  · intro h
    exact syncFileList_401 env w hlog h
  · intro h
    cases hfd : fetchDecrypt env w with
    | error e =>
      have hne : e ≠ "401" := fun hc => h (by rw [hfd, hc])
      rw [syncFileList_loggedIn_err env w e hlog hfd hne]
      exact ⟨mergeAndPush_info env w (some []) [SyncNet.fetchList],
        mergeAndPush_kv env w (some []) [SyncNet.fetchList]⟩
    | ok l =>
      rw [syncFileList_loggedIn_ok env w l hlog hfd]
      exact ⟨mergeAndPush_info env w (some l) [SyncNet.fetchList],
        mergeAndPush_kv env w (some l) [SyncNet.fetchList]⟩

/-- C1 witness: a concrete `401` run. -/
theorem sync_401_forces_logout_witness :
    syncFileList env401 wLogged =
      ({ incoming := some true }, { wLogged with user := logout wLogged.user },
        [SyncNet.fetchList]) :=
  (sync_401_forces_logout env401 wLogged rfl).1 rfl

/-- C4: a logged-in `syncFileList` run whose fetch/decrypt fails with
anything other than `401` does not abort: it runs the local merge with an
empty remote list, returns that merge's result, and leaves the persisted
user record intact (the local files become exactly what the merge says,
they are not wiped by the failure). -/
theorem sync_non401_degrades {C : Type} (env : SyncEnv C) (w : World C)
    (e : String) (hlog : loggedIn w.user = true)
    (hfd : fetchDecrypt env w = Except.error e) (hne : e ≠ "401") :
    syncFileList env w = mergeAndPush env w (some []) [SyncNet.fetchList] ∧
    (syncFileList env w).1 = (env.merge (some []) w.user.files).2.toResult ∧
    (syncFileList env w).2.1.user.files = (env.merge (some []) w.user.files).1 ∧
    (syncFileList env w).2.1.user.info = w.user.info := by
  have h1 := syncFileList_loggedIn_err env w e hlog hfd hne
  refine ⟨h1, ?_, ?_, ?_⟩ <;> rw [h1]
  · exact mergeAndPush_result env w (some []) [SyncNet.fetchList]
  · exact mergeAndPush_files env w (some []) [SyncNet.fetchList]
  · exact mergeAndPush_info env w (some []) [SyncNet.fetchList]

/-- C4 witness: a concrete `500` run. -/
theorem sync_non401_degrades_witness :
    (syncFileList env500 wLogged).1 =
      (env500.merge (some []) wLogged.user.files).2.toResult ∧
    (syncFileList env500 wLogged).2.1.user.info = wLogged.user.info :=
  ⟨(sync_non401_degrades env500 wLogged "500" rfl rfl (by decide)).2.1,
    (sync_non401_degrades env500 wLogged "500" rfl rfl (by decide)).2.2.2⟩

/-- C7: an unauthenticated `syncFileList` run is purely local: it performs
no network operation at all (empty trace), delegates to the local store's
merge with no remote list, and returns that merge's result. -/
theorem sync_unauthenticated_local {C : Type} (env : SyncEnv C) (w : World C)
    (hlog : loggedIn w.user = false) :
    syncFileList env w =
      ((env.merge Option.none w.user.files).2.toResult,
        { w with user := { w.user with files := (env.merge Option.none w.user.files).1 } },
        []) :=
  syncFileList_anon env w hlog

/-- C7 witness: a concrete logged-out run. -/
theorem sync_unauthenticated_local_witness :
    syncFileList idSyncEnv wAnon =
      ((idSyncEnv.merge Option.none wAnon.user.files).2.toResult,
        { wAnon with
            user := { wAnon.user with
              files := (idSyncEnv.merge Option.none wAnon.user.files).1 } },
        []) :=
  sync_unauthenticated_local idSyncEnv wAnon rfl

/-- C8: when a logged-in sync's merge reports outgoing changes — whether
the merged remote list came from a successful fetch+decrypt or is the
empty list left behind by a swallowed non-`401` failure — the post-merge
list is encrypted with the file-list key and uploaded: on upload success
the remote manifest is replaced by the encryption of the new local list;
on upload failure the remote manifest is untouched, the failure is
swallowed, and in both cases the call returns the merge result unchanged
(the `PUT` having been attempted in both). -/
theorem sync_outgoing_upload {C : Type} (env : SyncEnv C) (w : World C)
    (l : List OwnedFile) (k : String)
    (hlog : loggedIn w.user = true)
    (hfd : fetchDecrypt env w = Except.ok l ∨
      (l = [] ∧ ∃ e, fetchDecrypt env w = Except.error e ∧ e ≠ "401"))
    (hk : w.user.info.fileListKey = some k)
    (hout : (env.merge (some l) w.user.files).2.outgoing = true) :
    (syncFileList env w).1 = (env.merge (some l) w.user.files).2.toResult ∧
    (env.setFail = Option.none →
      (syncFileList env w).2.1.remote =
        some (env.encrypt (env.merge (some l) w.user.files).1 k) ∧
      (syncFileList env w).2.2 = [SyncNet.fetchList, SyncNet.pushList]) ∧
    (∀ err, env.setFail = some err →
      (syncFileList env w).2.1.remote = w.remote ∧
      (syncFileList env w).2.2 = [SyncNet.fetchList, SyncNet.pushList]) := by
  have h1 : syncFileList env w = mergeAndPush env w (some l) [SyncNet.fetchList] := by
    rcases hfd with hfd | ⟨hl, e, hfd, hne⟩
    · exact syncFileList_loggedIn_ok env w l hlog hfd
    · subst hl
      exact syncFileList_loggedIn_err env w e hlog hfd hne
  refine ⟨?_, ?_, ?_⟩
  · rw [h1]
    exact mergeAndPush_result env w (some l) [SyncNet.fetchList]
  · intro hset
    rw [h1, mergeAndPush_outgoing_eq env w (some l) [SyncNet.fetchList] k hout hk hset]
    exact ⟨rfl, rfl⟩
  · intro err hset
    rw [h1, mergeAndPush_outgoing_fail env w (some l) [SyncNet.fetchList] k err hout hk hset]
    exact ⟨rfl, rfl⟩

/-- C8 witness: two concrete outgoing merges whose uploads succeed — one
after a successful fetch+decrypt, one after a swallowed `500` fetch
failure merging the empty list. -/
theorem sync_outgoing_upload_witness :
    ((syncFileList envDemo wLogged).1 =
        (envDemo.merge (some [⟨2⟩]) wLogged.user.files).2.toResult ∧
      (syncFileList envDemo wLogged).2.1.remote =
        some (envDemo.encrypt (envDemo.merge (some [⟨2⟩]) wLogged.user.files).1 "key")) ∧
    ((syncFileList envDemo500 wLogged).1 =
        (envDemo500.merge (some []) wLogged.user.files).2.toResult ∧
      (syncFileList envDemo500 wLogged).2.1.remote =
        some (envDemo500.encrypt (envDemo500.merge (some []) wLogged.user.files).1 "key")) :=
  ⟨⟨(sync_outgoing_upload envDemo wLogged [⟨2⟩] "key" rfl (Or.inl rfl) rfl
        (by decide)).1,
      ((sync_outgoing_upload envDemo wLogged [⟨2⟩] "key" rfl (Or.inl rfl) rfl
        (by decide)).2.1 rfl).1⟩,
    ⟨(sync_outgoing_upload envDemo500 wLogged [] "key" rfl
        (Or.inr ⟨rfl, "500", rfl, by decide⟩) rfl (by decide)).1,
      ((sync_outgoing_upload envDemo500 wLogged [] "key" rfl
        (Or.inr ⟨rfl, "500", rfl, by decide⟩) rfl (by decide)).2.1 rfl).1⟩⟩

/-- C9 counterexample: on the `401` forced-logout path the returned object
is the literal `{ incoming: true }` — its `outgoing` and `downloadCount`
fields are absent, so not every `syncFileList` call returns all three
boolean fields. -/
theorem sync_result_fields_counterexample :
    (syncFileList env401 wLogged).1.incoming = some true ∧
    (syncFileList env401 wLogged).1.outgoing = Option.none ∧
    (syncFileList env401 wLogged).1.downloadCount = Option.none :=
  ⟨rfl, rfl, rfl⟩

/-- C9 amended: every `syncFileList` call returns an object with an
`incoming` field; on the `401` forced-logout path the result is exactly
`{ incoming: true }` with `outgoing` and `downloadCount` absent; on every
other path the result carries all three boolean fields. -/
theorem sync_result_fields {C : Type} (env : SyncEnv C) (w : World C) :
    (syncFileList env w).1.incoming.isSome = true ∧
    ((loggedIn w.user = true ∧ fetchDecrypt env w = Except.error "401") →
      (syncFileList env w).1 = { incoming := some true }) ∧
    (¬(loggedIn w.user = true ∧ fetchDecrypt env w = Except.error "401") →
      (syncFileList env w).1.outgoing.isSome = true ∧
      (syncFileList env w).1.downloadCount.isSome = true) := by
  cases hlog : loggedIn w.user with
  | false =>
    rw [syncFileList_anon env w hlog]
    refine ⟨rfl, ?_, fun _ => ⟨rfl, rfl⟩⟩
    intro h
    exact Bool.noConfusion h.1
  | true =>
    cases hfd : fetchDecrypt env w with
    | ok l =>
      rw [syncFileList_loggedIn_ok env w l hlog hfd,
        mergeAndPush_result env w (some l) [SyncNet.fetchList]]
      refine ⟨rfl, ?_, fun _ => ⟨rfl, rfl⟩⟩
      intro h
      exact Except.noConfusion h.2
    | error e =>
      by_cases he : e = "401"
      · subst he
        rw [syncFileList_401 env w hlog hfd]
        exact ⟨rfl, fun _ => rfl, fun hcon => absurd ⟨rfl, rfl⟩ hcon⟩
      · rw [syncFileList_loggedIn_err env w e hlog hfd he,
          mergeAndPush_result env w (some []) [SyncNet.fetchList]]
        refine ⟨rfl, ?_, fun _ => ⟨rfl, rfl⟩⟩
        intro h
        exact absurd (Except.error.inj h.2) he

/-- C9 witness: a non-`401` run carries all three fields. -/
theorem sync_result_fields_witness :
    (syncFileList env500 wLogged).1.outgoing.isSome = true ∧
    (syncFileList env500 wLogged).1.downloadCount.isSome = true :=
  (sync_result_fields env500 wLogged).2.2 (by decide)

/-- C5 counterexample: two back-to-back syncs with no intervening change,
over a merge obeying the idempotence contract at every instance involved
(merging a list into itself reports no changes), do NOT yield the same
result both times: the first sync adopts the remote record (`incoming`)
while the second reports no changes.  Only the second call's `outgoing =
false` part of the claim holds. -/
theorem sync_twice_counterexample :
    demoMerge (some [⟨5⟩]) [⟨5⟩] = ([⟨5⟩], Changes.clean) ∧
    (syncFileList envDemo wDemo).1 ≠
      (syncFileList envDemo ((syncFileList envDemo wDemo).2.1)).1 ∧
    (syncFileList envDemo ((syncFileList envDemo wDemo).2.1)).1 =
      Changes.clean.toResult := by
  refine ⟨?_, ?_, ?_⟩ <;> decide

/-- C5 amended: running `syncFileList` twice in a row with no intervening
local or remote change — the first call's fetch+decrypt succeeding and its
upload (if one is needed) succeeding — yields a second result with no
changes at all (`incoming`, `outgoing` and `downloadCount` all false, in
particular `outgoing = false`), given the local store's merge contract
(self-merge is clean; re-merging a list whose first merge had nothing
outgoing is clean) and the cipher round-trip.  The two calls' results need
not be equal: the first may legitimately report changes. -/
theorem sync_idempotent {C : Type} (env : SyncEnv C) (w : World C)
    (l0 : List OwnedFile)
    (hlog : loggedIn w.user = true)
    (hfd : fetchDecrypt env w = Except.ok l0)
    (hset : env.setFail = Option.none)
    (hself : ∀ l, env.merge (some l) l = (l, Changes.clean))
    (hidem : ∀ l fs, (env.merge (some l) fs).2.outgoing = false →
      env.merge (some l) (env.merge (some l) fs).1 =
        ((env.merge (some l) fs).1, Changes.clean))
    (hround : ∀ l k, env.decrypt (env.encrypt l k) k = Except.ok l) :
    (syncFileList env ((syncFileList env w).2.1)).1 = Changes.clean.toResult := by
  obtain ⟨hf, b, hr, k, hk, hdec⟩ := fetchDecrypt_ok_elim env w l0 hfd
  have h1 := syncFileList_loggedIn_ok env w l0 hlog hfd
  cases hout : (env.merge (some l0) w.user.files).2.outgoing with
  | false =>
    have hw1 : (syncFileList env w).2.1 =
        { w with user := { w.user with files := (env.merge (some l0) w.user.files).1 } } := by
      rw [h1, mergeAndPush_not_outgoing env w (some l0) [SyncNet.fetchList] hout]
    have hlog1 : loggedIn
        ({ w with user := { w.user with files := (env.merge (some l0) w.user.files).1 } } : World C).user = true := hlog
    have hfd1 : fetchDecrypt env
        { w with user := { w.user with files := (env.merge (some l0) w.user.files).1 } } = Except.ok l0 := by
      rw [fetchDecrypt_eq env
        { w with user := { w.user with files := (env.merge (some l0) w.user.files).1 } } b k hf hr hk]
      exact hdec
    rw [hw1, syncFileList_loggedIn_ok env
        { w with user := { w.user with files := (env.merge (some l0) w.user.files).1 } } l0 hlog1 hfd1,
      mergeAndPush_result env
        { w with user := { w.user with files := (env.merge (some l0) w.user.files).1 } } (some l0) [SyncNet.fetchList]]
    dsimp only
    rw [hidem l0 w.user.files hout]
  | true =>
    have hw1 : (syncFileList env w).2.1 =
        { user := { w.user with files := (env.merge (some l0) w.user.files).1 },
          remote := some (env.encrypt (env.merge (some l0) w.user.files).1 k) } := by
      rw [h1, mergeAndPush_outgoing_eq env w (some l0) [SyncNet.fetchList] k hout hk hset]
    have hlog1 : loggedIn
        ({ user := { w.user with files := (env.merge (some l0) w.user.files).1 },
            remote := some (env.encrypt (env.merge (some l0) w.user.files).1 k) } : World C).user = true := hlog
    have hfd1 : fetchDecrypt env
        { user := { w.user with files := (env.merge (some l0) w.user.files).1 },
          remote := some (env.encrypt (env.merge (some l0) w.user.files).1 k) } =
        Except.ok (env.merge (some l0) w.user.files).1 := by
      rw [fetchDecrypt_eq env
        { user := { w.user with files := (env.merge (some l0) w.user.files).1 },
          remote := some (env.encrypt (env.merge (some l0) w.user.files).1 k) }
        (env.encrypt (env.merge (some l0) w.user.files).1 k) k hf rfl hk]
      exact hround (env.merge (some l0) w.user.files).1 k
    rw [hw1, syncFileList_loggedIn_ok env
        { user := { w.user with files := (env.merge (some l0) w.user.files).1 },
          remote := some (env.encrypt (env.merge (some l0) w.user.files).1 k) }
        (env.merge (some l0) w.user.files).1 hlog1 hfd1,
      mergeAndPush_result env
        { user := { w.user with files := (env.merge (some l0) w.user.files).1 },
          remote := some (env.encrypt (env.merge (some l0) w.user.files).1 k) }
        (some (env.merge (some l0) w.user.files).1) [SyncNet.fetchList]]
    dsimp only
    rw [hself (env.merge (some l0) w.user.files).1]

/-- C5 witness: a concrete double sync under the trivial clean merge. -/
theorem sync_idempotent_witness :
    (syncFileList idSyncEnv ((syncFileList idSyncEnv wLogged).2.1)).1 =
      Changes.clean.toResult :=
  sync_idempotent idSyncEnv wLogged [⟨2⟩] rfl rfl rfl
    (fun _ => rfl) (fun _ _ _ => rfl) (fun _ _ => rfl)

/-! ## Upload / download handler theorems -/

/-- C6: a cancelled transfer — the sentinel error message `0`, as the
handlers' own comments document — is handled as a normal terminal state:
the upload handler stores no OwnedFile, emits only the
`startedUpload`/`cancelledUpload` metrics (never `stoppedUpload`), never
calls `raven.captureException`, and pushes no route; the download handler
likewise only resets the transfer with no raven capture, no
`stoppedDownload` metric and no route change.  Any other error message is
distinguished: it is raven-captured (and routed to the error page by the
upload handler). -/
theorem cancellation_not_reported (hasPassword : Bool) :
    uploadHandler false (Except.error "0") hasPassword =
      { storedFiles := [], metricsCalls := ["startedUpload", "cancelledUpload"],
        ravenCaptured := false, routePushed := Option.none,
        modal := Option.none, passwordEmitted := false,
        archiveCleared := true, syncCalled := true } ∧
    downloadHandler (Except.error "0") =
      { metricsCalls := ["startedDownload"], ravenCaptured := false,
        routePushed := Option.none, transferReset := true,
        transferCleared := false } ∧
    (∀ e, e ≠ "0" → e ≠ "404" →
      (uploadHandler false (Except.error e) hasPassword).ravenCaptured = true ∧
      (uploadHandler false (Except.error e) hasPassword).routePushed =
        some "/error" ∧
      (downloadHandler (Except.error e)).ravenCaptured = true ∧
      (downloadHandler (Except.error e)).routePushed = some "/error") := by
  refine ⟨rfl, rfl, ?_⟩
  intro e h0 h404
  refine ⟨?_, ?_, ?_, ?_⟩ <;> simp [uploadHandler, downloadHandler, h0, h404]

/-- C6 witness: the cancelled upload and a concrete non-cancellation
failure. -/
theorem cancellation_not_reported_witness :
    (uploadHandler false (Except.error "0") false).ravenCaptured = false ∧
    (uploadHandler false (Except.error "500") false).ravenCaptured = true ∧
    (downloadHandler (Except.error "500")).ravenCaptured = true :=
  ⟨by rw [(cancellation_not_reported false).1],
    ((cancellation_not_reported false).2.2 "500" (by decide) (by decide)).1,
    ((cancellation_not_reported false).2.2 "500" (by decide) (by decide)).2.2.1⟩

end Send
